import Mathlib

/-!
Shallow embedding of the ironbar bar-lifecycle manager and geometry helpers.

Sources embedded:
- `src/main.rs`: `load_output_bars`, and the output-event loop inside
  `Ironbar::start` (lines 188-214) operating on the bar registry
  (`bars: Rc<RefCell<Vec<Bar>>>`).
- `src/gtk_helpers.rs`: `geometry` of the `IronbarGtkExt` trait.

Modelling conventions:
- Rust `Option<T>` is `Option T`; `Result<T, Report>` failure paths are
  explicit constructors; a `.expect(..)` panic is a distinguished `fatal`
  outcome (it kills the process, unlike a logged `Report`).
- The GTK/Wayland handles (`Application`, `Monitor`, `Display`) are opaque:
  only the operations the embedded code performs on them are modelled
  (`monitor_at_point` as a partial map from logical coordinates).
- `create_bar` lives in `src/bar.rs`, which is not part of the provided
  sources; the embedded `loadOutputBars` therefore takes it as a function
  parameter, exactly at the call boundary the source uses.
- `f64` coordinate values in `geometry` are modelled as `Rat`: the source
  performs no floating-point arithmetic on them (they are passed through
  verbatim or defaulted to zero), so exact values are faithful.
-/

/-- A bar, as observed by the event loop in `main.rs`: the loop reads
`bar.monitor_name()` and `Ironbar::bar_by_name` reads `bar.name()`. -/
structure Bar where
  monitorName : String
  name : String
  deriving DecidableEq, Repr

mutual

/-- Embeds `config::Config` as used by `load_output_bars`: the three default
bar regions (only their presence is inspected, via `is_some`), the optional
per-monitor map, and the optional bar name (used by `create_bar` when naming
the bar). Rust's `end` field is `endRegion` (`end` is reserved in Lean). -/
inductive Config : Type where
  | mk (startRegion : Option Unit) (centerRegion : Option Unit)
       (endRegion : Option Unit)
       (monitors : Option (List (String × MonitorConfig)))
       (name : Option String) : Config

/-- Embeds `config::MonitorConfig`: a monitor maps to either a single bar
configuration or a list of them. -/
inductive MonitorConfig : Type where
  | Single (config : Config) : MonitorConfig
  | Multiple (configs : List Config) : MonitorConfig

end

def Config.startRegion : Config → Option Unit
  | .mk s _ _ _ _ => s

def Config.centerRegion : Config → Option Unit
  | .mk _ c _ _ _ => c

def Config.endRegion : Config → Option Unit
  | .mk _ _ e _ _ => e

def Config.monitors : Config → Option (List (String × MonitorConfig))
  | .mk _ _ _ m _ => m

def Config.name : Config → Option String
  | .mk _ _ _ _ n => n

/-- `HashMap::get` on the per-monitor map, embedded as association-list
lookup (the map's keys are unique in Rust, so first-match lookup agrees). -/
def lookupMonitor : List (String × MonitorConfig) → String → Option MonitorConfig
  | [], _ => none
  | (k, v) :: rest, n => if k = n then some v else lookupMonitor rest n

/-- An opaque GDK monitor handle: `load_output_bars` only tests its
existence and passes it through to `create_bar`. -/
abbrev Monitor := Unit

/-- The GDK display, reduced to the one operation the embedded code calls:
`monitor_at_point(x, y)` returning an optional monitor. -/
structure Display where
  monitorAtPoint : Int → Int → Option Monitor

/-- Embeds `smithay_client_toolkit::output::OutputInfo` restricted to the
fields `load_output_bars` and the event loop read. -/
structure OutputInfo where
  name : Option String
  logicalPosition : Option (Int × Int)
  deriving DecidableEq, Repr

/-- Embeds `clients::wayland::OutputEventType`. -/
inductive OutputEventType where
  | new
  | update
  | destroyed
  deriving DecidableEq, Repr

/-- An output event as consumed by the loop in `Ironbar::start`. -/
structure OutputEvent where
  eventType : OutputEventType
  output : OutputInfo
  deriving DecidableEq, Repr

/-- Outcome of `load_output_bars`: `fatal` models the
`.expect("monitor to exist")` panic (process death), `err` a returned
`Report` (logged by the caller), `ok` the bar list. -/
inductive LoadResult where
  | fatal (msg : String)
  | err (msg : String)
  | ok (bars : List Bar)
  deriving DecidableEq, Repr

/-- The signature of `bar::create_bar` as called from `load_output_bars`:
it receives the monitor name and one bar configuration and either produces
a `Bar` or fails. (The `app` and `monitor` handles are opaque and carry no
information in the model.) -/
abbrev CreateBar := String → Config → Except String Bar

/-- Embeds the `configs.iter().map(create_bar).collect::<Result<_>>()` of
the `MonitorConfig::Multiple` branch: first error wins, otherwise the bars
in list order. -/
def collectBars (createBar : CreateBar) (monitorName : String) :
    List Config → Except String (List Bar)
  | [] => .ok []
  | c :: rest =>
    match createBar monitorName c with
    | .error e => .error e
    | .ok b =>
      match collectBars createBar monitorName rest with
      | .error e => .error e
      | .ok bs => .ok (b :: bs)

/-- Embeds `load_output_bars` (`src/main.rs` lines 316-373). Faithful to the
source order: missing output name is a returned error; the monitor-at-point
lookup happens at `logical_position.unwrap_or_default()` and its failure is
a panic; then the per-monitor map is consulted, with the process-wide
default used only when `start`/`center`/`end` is configured (in the default
branch the whole `Config` is passed to `create_bar`, as `config.clone()`
does in the source). -/
def loadOutputBars (config : Config) (display : Display)
    (createBar : CreateBar) (output : OutputInfo) : LoadResult :=
  match output.name with
  | none => .err "Output missing monitor name"
  | some monitorName =>
    let pos := output.logicalPosition.getD (0, 0)
    match display.monitorAtPoint pos.1 pos.2 with
    | none => .fatal "monitor to exist"
    | some _ =>
      let showDefaultBar := config.startRegion.isSome
        || config.centerRegion.isSome || config.endRegion.isSome
      match lookupMonitor (config.monitors.getD []) monitorName with
      | some (.Single c) =>
        match createBar monitorName c with
        | .error e => .err e
        | .ok b => .ok [b]
      | some (.Multiple cs) =>
        match collectBars createBar monitorName cs with
        | .error e => .err e
        | .ok bs => .ok bs
      | none =>
        if showDefaultBar then
          match createBar monitorName config with
          | .error e => .err e
          | .ok b => .ok [b]
        else .ok []

/-- One iteration of the output-event loop in `Ironbar::start`
(lines 192-213): `New` appends the loaded bars on success and logs the
error (registry untouched) on failure; `Destroyed` ignores nameless outputs
and otherwise retains only bars whose monitor name differs; `Update` is a
no-op. `none` propagates a panic from `load_output_bars`. -/
def processEvent (config : Config) (display : Display) (createBar : CreateBar)
    (bars : List Bar) (ev : OutputEvent) : Option (List Bar) :=
  match ev.eventType with
  | .new =>
    match loadOutputBars config display createBar ev.output with
    | .fatal _ => none
    | .err _ => some bars
    | .ok newBars => some (bars ++ newBars)
  | .destroyed =>
    match ev.output.name with
    | none => some bars
    | some name => some (bars.filter fun bar => bar.monitorName != name)
  | .update => some bars

/-- The event loop folded over a whole event sequence, in FIFO order,
starting from a given registry state (`Ironbar::new` starts from `[]`). -/
def processEvents (config : Config) (display : Display)
    (createBar : CreateBar) : List Bar → List OutputEvent → Option (List Bar)
  | bars, [] => some bars
  | bars, ev :: rest =>
    match processEvent config display createBar bars ev with
    | none => none
    | some bars' => processEvents config display createBar bars' rest

/-- The Bar Registry invariant of spec section 3: no two live bars share
the same (monitor name, bar name) pair. -/
def registryInvariant (bars : List Bar) : Prop :=
  bars.Pairwise fun a b => (a.monitorName, a.name) ≠ (b.monitorName, b.name)

instance (bars : List Bar) : Decidable (registryInvariant bars) := by
  unfold registryInvariant
  infer_instance

/-- Modelled from the spec: `create_bar` (`src/bar.rs`, absent from the
provided sources). Per spec section 3 a Bar is bound to the given monitor
name and carries a user-visible name that "may differ from monitor name
when multiple bars share an output"; the name is taken from the bar's
configuration entry when present, defaulting to the monitor name. -/
def specCreateBar (monitorName : String) (config : Config) : Except String Bar :=
  .ok { monitorName := monitorName, name := config.name.getD monitorName }

/-- Embeds `gtk::Orientation` restricted to the two values `geometry`
distinguishes. -/
inductive Gtk.Orientation where
  | horizontal
  | vertical
  deriving DecidableEq, Repr

/-- A GTK allocation: the extents `geometry` reads. -/
structure Allocation where
  width : Int
  height : Int
  deriving DecidableEq, Repr

/-- The state of a widget as observed by `geometry` in
`src/gtk_helpers.rs`: its own allocation, the allocation of its top-level
root when one exists (`self.root()`), and the result of
`translate_coordinates(&top_level, 0.0, 0.0)` (absent when translation is
unavailable, e.g. the widget is not yet mapped). -/
structure WidgetModel where
  allocation : Allocation
  root : Option Allocation
  translateToRoot : Option (Rat × Rat)
  deriving DecidableEq, Repr

/-- Embeds `gtk_helpers::WidgetGeometry`. The `f64` position is modelled
exactly (`Rat`) since the source never computes with it. -/
structure WidgetGeometry where
  position : Rat
  size : Int
  barSize : Int
  deriving DecidableEq, Repr

/-- Embeds `IronbarGtkExt::geometry` (`src/gtk_helpers.rs` lines 37-70).
`none` models the `.expect("Failed to get root widget")` panic when the
widget has no top-level root; a failed coordinate translation defaults to
`(0, 0)` via `unwrap_or`. -/
def geometry (w : WidgetModel) (orientation : Gtk.Orientation) :
    Option WidgetGeometry :=
  let widgetSize := if orientation = .horizontal then
    w.allocation.width else w.allocation.height
  match w.root with
  | none => none
  | some topLevelAllocation =>
    let barSize := if orientation = .horizontal then
      topLevelAllocation.width else topLevelAllocation.height
    let widgetXY := w.translateToRoot.getD (0, 0)
    let widgetPos := if orientation = .horizontal then
      widgetXY.1 else widgetXY.2
    some { position := widgetPos, size := widgetSize, barSize := barSize }

/-- An observable action of the cooperative UI task spawned in
`Ironbar::start` (lines 188-214). -/
inductive StartAction where
  | recvActivation
  | processOutput (ev : OutputEvent)
  deriving DecidableEq, Repr

/-- The action trace of the UI task spawned by `glib::spawn_future_local`
in `Ironbar::start`: the task first blocks on `activate_rx.recv()` (the
continuation token sent by the `connect_activate` handler) and only then
enters the `while let Ok(event) = rx_outputs.recv()` loop, processing the
given events in arrival order. -/
def uiTaskTrace (events : List OutputEvent) : List StartAction :=
  .recvActivation :: events.map .processOutput

/-! ### Concrete fixtures used by witnesses and counterexamples -/

/-- A display with a monitor at every logical point. -/
def displayAll : Display := ⟨fun _ _ => some ()⟩

/-- A display reporting no monitor anywhere. -/
def displayEmpty : Display := ⟨fun _ _ => none⟩

/-- The empty configuration: no default regions, no per-monitor map. -/
def cfgEmpty : Config := .mk none none none none none

/-- A bar configuration carrying only an explicit bar name. -/
def namedCfg (n : String) : Config := .mk none none none none (some n)

/-! ### Helper lemmas about the embedded operations -/

/-- Unfolds `loadOutputBars` past the name and monitor checks. -/
theorem loadOutputBars_eq (config : Config) (display : Display)
    (createBar : CreateBar) (output : OutputInfo) (n : String) (m : Monitor)
    (hname : output.name = some n)
    (hmon : display.monitorAtPoint (output.logicalPosition.getD (0, 0)).1
      (output.logicalPosition.getD (0, 0)).2 = some m) :
    loadOutputBars config display createBar output =
      match lookupMonitor (config.monitors.getD []) n with
      | some (.Single c) =>
        match createBar n c with
        | .error e => .err e
        | .ok b => .ok [b]
      | some (.Multiple cs) =>
        match collectBars createBar n cs with
        | .error e => .err e
        | .ok bs => .ok bs
      | none =>
        if config.startRegion.isSome || config.centerRegion.isSome
            || config.endRegion.isSome then
          match createBar n config with
          | .error e => .err e
          | .ok b => .ok [b]
        else .ok [] := by
  simp only [loadOutputBars, hname, hmon]

/-- When the display reports no monitor at the looked-up point,
`load_output_bars` dies on its `.expect`. -/
theorem loadOutputBars_no_monitor (config : Config) (display : Display)
    (createBar : CreateBar) (output : OutputInfo) (n : String)
    (hname : output.name = some n)
    (hmon : display.monitorAtPoint (output.logicalPosition.getD (0, 0)).1
      (output.logicalPosition.getD (0, 0)).2 = none) :
    loadOutputBars config display createBar output = .fatal "monitor to exist" := by
  simp only [loadOutputBars, hname, hmon]

/-- If `create_bar` succeeds on every configuration of the list,
`collect` yields all the bars, one per entry in list order. -/
theorem collectBars_ok (createBar : CreateBar) (n : String) :
    ∀ cs : List Config, (∀ c ∈ cs, ∃ b, createBar n c = .ok b) →
      ∃ bs, collectBars createBar n cs = .ok bs ∧ bs.length = cs.length ∧
        ∀ i (hc : i < cs.length) (hb : i < bs.length),
          createBar n (cs.get ⟨i, hc⟩) = .ok (bs.get ⟨i, hb⟩) := by
  intro cs
  induction cs with
  | nil =>
    intro _
    exact ⟨[], rfl, rfl, fun i hc => absurd hc (by simp)⟩
  | cons c rest ih =>
    intro h
    obtain ⟨b, hb⟩ := h c (List.mem_cons_self c rest)
    obtain ⟨bs, hbs, hlen, hpt⟩ :=
      ih fun c' hc' => h c' (List.mem_cons_of_mem _ hc')
    refine ⟨b :: bs, ?_, by simp [hlen], ?_⟩
    · simp [collectBars, hb, hbs]
    · intro i hc hb2
      cases i with
      | zero => simpa using hb
      | succ k =>
        simpa using hpt k (by simpa using hc) (by simpa using hb2)

/-- If `create_bar` fails on some configuration of the list, `collect`
short-circuits into an error. -/
theorem collectBars_error (createBar : CreateBar) (n : String) :
    ∀ cs : List Config, (∃ c ∈ cs, ∃ e, createBar n c = .error e) →
      ∃ e, collectBars createBar n cs = .error e := by
  intro cs
  induction cs with
  | nil =>
    rintro ⟨c, hc, _⟩
    simp at hc
  | cons c rest ih =>
    rintro ⟨c', hc', e', he'⟩
    cases hd : createBar n c with
    | error e => exact ⟨e, by simp [collectBars, hd]⟩
    | ok b =>
      have hrest : ∃ c ∈ rest, ∃ e, createBar n c = .error e := by
        rcases List.mem_cons.mp hc' with rfl | hm
        · rw [hd] at he'
          exact absurd he' (by simp)
        · exact ⟨c', hm, e', he'⟩
      obtain ⟨e, he⟩ := ih hrest
      exact ⟨e, by simp [collectBars, hd, he]⟩

/-- The spec-modelled `create_bar` binds the bar to the monitor name it is
given. -/
theorem specCreateBar_monitorName (n : String) (c : Config) (b : Bar)
    (h : specCreateBar n c = .ok b) : b.monitorName = n := by
  simp only [specCreateBar, Except.ok.injEq] at h
  rw [← h]

/-! ### Claim theorems -/

/-- C2: processing a `Destroyed` event carrying name `n` removes from the
registry exactly the bars whose monitor name equals `n`, preserves the
relative order of survivors (the result is a sublist), and when no bar
matches leaves the registry unchanged, without error or panic. -/
theorem destroyed_event_filters_registry (config : Config) (display : Display)
    (createBar : CreateBar) (bars : List Bar) (ev : OutputEvent) (n : String)
    (het : ev.eventType = .destroyed) (hn : ev.output.name = some n) :
    ∃ bars', processEvent config display createBar bars ev = some bars' ∧
      bars'.Sublist bars ∧
      (∀ b, b ∈ bars' ↔ b ∈ bars ∧ b.monitorName ≠ n) ∧
      ((∀ b ∈ bars, b.monitorName ≠ n) → bars' = bars) := by
  refine ⟨bars.filter (fun bar => bar.monitorName != n), ?_, ?_, ?_, ?_⟩
  · simp only [processEvent, het, hn]
  · exact List.filter_sublist _
  · intro b
    simp [List.mem_filter]
  · intro h
    rw [List.filter_eq_self]
    intro a ha
    simpa using h a ha

/-- C2 witness: the spec's {A, B, A, C} example, destroying "A". -/
theorem destroyed_event_filters_registry_witness :
    (OutputEvent.mk .destroyed ⟨some "A", none⟩).eventType = .destroyed ∧
    (OutputEvent.mk .destroyed ⟨some "A", none⟩).output.name = some "A" ∧
    ∃ bars', processEvent cfgEmpty displayAll specCreateBar
        [⟨"A", "one"⟩, ⟨"B", "two"⟩, ⟨"A", "three"⟩, ⟨"C", "four"⟩]
        ⟨.destroyed, ⟨some "A", none⟩⟩ = some bars' ∧
      bars'.Sublist [⟨"A", "one"⟩, ⟨"B", "two"⟩, ⟨"A", "three"⟩, ⟨"C", "four"⟩] ∧
      (∀ b, b ∈ bars' ↔
        b ∈ ([⟨"A", "one"⟩, ⟨"B", "two"⟩, ⟨"A", "three"⟩, ⟨"C", "four"⟩] : List Bar) ∧
        b.monitorName ≠ "A") ∧
      ((∀ b ∈ ([⟨"A", "one"⟩, ⟨"B", "two"⟩, ⟨"A", "three"⟩, ⟨"C", "four"⟩] : List Bar),
          b.monitorName ≠ "A") →
        bars' = [⟨"A", "one"⟩, ⟨"B", "two"⟩, ⟨"A", "three"⟩, ⟨"C", "four"⟩]) :=
  ⟨rfl, rfl, destroyed_event_filters_registry _ _ _ _ _ _ rfl rfl⟩

/-- C6: a `New` event whose output name is absent makes `load_output_bars`
return an error report; the event loop logs it, producing zero bars and
leaving the registry unchanged (no panic, the loop continues). -/
theorem new_event_missing_name (config : Config) (display : Display)
    (createBar : CreateBar) (bars : List Bar) (ev : OutputEvent)
    (het : ev.eventType = .new) (hn : ev.output.name = none) :
    loadOutputBars config display createBar ev.output =
      .err "Output missing monitor name" ∧
    processEvent config display createBar bars ev = some bars := by
  have hload : loadOutputBars config display createBar ev.output =
      .err "Output missing monitor name" := by
    simp only [loadOutputBars, hn]
  refine ⟨hload, ?_⟩
  simp only [processEvent, het, hload]

/-- C6 witness: a nameless output against a non-empty registry. -/
theorem new_event_missing_name_witness :
    (OutputEvent.mk .new ⟨none, some (3, 4)⟩).eventType = .new ∧
    (OutputEvent.mk .new ⟨none, some (3, 4)⟩).output.name = none ∧
    (loadOutputBars cfgEmpty displayAll specCreateBar
        (OutputEvent.mk .new ⟨none, some (3, 4)⟩).output =
      .err "Output missing monitor name" ∧
    processEvent cfgEmpty displayAll specCreateBar [⟨"A", "one"⟩]
        ⟨.new, ⟨none, some (3, 4)⟩⟩ = some [⟨"A", "one"⟩]) :=
  ⟨rfl, rfl, new_event_missing_name _ _ _ _ _ rfl rfl⟩

/-- C7: when the widget has a top-level root but coordinate translation
into the root's space is unavailable, `geometry` still returns a result and
its reported position is zero. -/
theorem geometry_translate_fallback (w : WidgetModel) (o : Gtk.Orientation)
    (r : Allocation) (hr : w.root = some r) (ht : w.translateToRoot = none) :
    ∃ g, geometry w o = some g ∧ g.position = 0 := by
  refine ⟨⟨0, if o = .horizontal then w.allocation.width else w.allocation.height,
    if o = .horizontal then r.width else r.height⟩, ?_, rfl⟩
  cases o <;> simp [geometry, hr, ht]

/-- C7 witness: an unmapped widget (no translation) inside a root. -/
theorem geometry_translate_fallback_witness :
    (WidgetModel.mk ⟨10, 2⟩ (some ⟨100, 20⟩) none).root = some ⟨100, 20⟩ ∧
    (WidgetModel.mk ⟨10, 2⟩ (some ⟨100, 20⟩) none).translateToRoot = none ∧
    ∃ g, geometry ⟨⟨10, 2⟩, some ⟨100, 20⟩, none⟩ .horizontal = some g ∧
      g.position = 0 :=
  ⟨rfl, rfl, geometry_translate_fallback _ _ _ rfl rfl⟩

/-- C9: for a widget with no top-level root, `geometry` hits the
`.expect("Failed to get root widget")` failure branch instead of returning
a default `WidgetGeometry`; the witness shows the branch is reachable. -/
theorem geometry_requires_root (w : WidgetModel) (o : Gtk.Orientation)
    (h : w.root = none) : geometry w o = none := by
  simp [geometry, h]

/-- C9 witness: a detached widget makes `geometry` fail. -/
theorem geometry_requires_root_witness :
    (WidgetModel.mk ⟨10, 2⟩ none (some (5, 1))).root = none ∧
    geometry ⟨⟨10, 2⟩, none, some (5, 1)⟩ .vertical = none :=
  ⟨rfl, geometry_requires_root _ _ rfl⟩

/-- C10: a `New` output with no logical position is processed exactly as if
it were at the default position (0, 0): the result equals the run with
position (0, 0), and the monitor-at-point lookup really happens at (0, 0)
(its failure there is the fatal `.expect`), rather than the event being
skipped or erroring on the missing position. -/
theorem new_event_defaults_position (config : Config) (display : Display)
    (createBar : CreateBar) (output : OutputInfo)
    (hp : output.logicalPosition = none) :
    loadOutputBars config display createBar output =
      loadOutputBars config display createBar
        { output with logicalPosition := some (0, 0) } ∧
    (∀ n, output.name = some n → display.monitorAtPoint 0 0 = none →
      loadOutputBars config display createBar output =
        .fatal "monitor to exist") := by
  constructor
  · simp only [loadOutputBars, hp, Option.getD_none, Option.getD_some]
  · intro n hn hm
    simp only [loadOutputBars, hp, hn, Option.getD_none, hm]

/-- C10 witness: a positionless output on a monitor-less display dies on
the (0, 0) lookup, and matches the explicit (0, 0) run. -/
theorem new_event_defaults_position_witness :
    (OutputInfo.mk (some "DP-1") none).logicalPosition = none ∧
    (loadOutputBars cfgEmpty displayEmpty specCreateBar ⟨some "DP-1", none⟩ =
      loadOutputBars cfgEmpty displayEmpty specCreateBar
        ⟨some "DP-1", some (0, 0)⟩ ∧
    (∀ n, (OutputInfo.mk (some "DP-1") none).name = some n →
      displayEmpty.monitorAtPoint 0 0 = none →
      loadOutputBars cfgEmpty displayEmpty specCreateBar ⟨some "DP-1", none⟩ =
        .fatal "monitor to exist")) :=
  ⟨rfl, new_event_defaults_position _ _ _ _ rfl⟩

/-- C8: in the UI task spawned by `Ironbar::start`, receiving the
activation token strictly precedes the processing of every output event:
any `processOutput` action in the task's trace is preceded by the
`recvActivation` action. -/
theorem activation_precedes_output_processing (events : List OutputEvent)
    (i : Nat) (ev : OutputEvent)
    (h : (uiTaskTrace events)[i]? = some (.processOutput ev)) :
    ∃ j, j < i ∧ (uiTaskTrace events)[j]? = some .recvActivation := by
  refine ⟨0, ?_, by simp [uiTaskTrace]⟩
  cases i with
  | zero => simp [uiTaskTrace] at h
  | succ k => exact Nat.succ_pos k

/-- C8 witness: with one event, the event is processed at trace index 1,
after the activation receive at index 0. -/
theorem activation_precedes_output_processing_witness :
    (uiTaskTrace [⟨.new, ⟨some "M", some (0, 0)⟩⟩])[1]? =
      some (.processOutput ⟨.new, ⟨some "M", some (0, 0)⟩⟩) ∧
    ∃ j, j < 1 ∧ (uiTaskTrace [⟨.new, ⟨some "M", some (0, 0)⟩⟩])[j]? =
      some .recvActivation :=
  ⟨rfl, activation_precedes_output_processing _ 1 _ rfl⟩

/-- C3: configuration tie-break for a `New` event with a present monitor
name. (a) An explicit per-monitor entry alone determines the bars: two
configurations agreeing on the entry for that monitor (but possibly
differing everywhere else, defaults included) load identically.
(b) Without an entry, one default bar is created when at least one default
region is configured (and the default bar's construction succeeds); with
all three regions empty, zero bars are created. -/
theorem new_event_tie_break (cfg cfg2 : Config) (display : Display)
    (createBar : CreateBar) (output : OutputInfo) (n : String)
    (hname : output.name = some n) :
    (∀ mc, lookupMonitor (cfg.monitors.getD []) n = some mc →
      lookupMonitor (cfg2.monitors.getD []) n = some mc →
      loadOutputBars cfg display createBar output =
        loadOutputBars cfg2 display createBar output) ∧
    (∀ m, display.monitorAtPoint (output.logicalPosition.getD (0, 0)).1
        (output.logicalPosition.getD (0, 0)).2 = some m →
      lookupMonitor (cfg.monitors.getD []) n = none →
      ((cfg.startRegion.isSome ∨ cfg.centerRegion.isSome ∨ cfg.endRegion.isSome) →
        ∀ b, createBar n cfg = .ok b →
          loadOutputBars cfg display createBar output = .ok [b]) ∧
      (cfg.startRegion = none → cfg.centerRegion = none → cfg.endRegion = none →
        loadOutputBars cfg display createBar output = .ok [])) := by
  constructor
  · intro mc h1 h2
    cases hd : display.monitorAtPoint (output.logicalPosition.getD (0, 0)).1
        (output.logicalPosition.getD (0, 0)).2 with
    | none =>
      rw [loadOutputBars_no_monitor cfg display createBar output n hname hd,
        loadOutputBars_no_monitor cfg2 display createBar output n hname hd]
    | some m =>
      rw [loadOutputBars_eq cfg display createBar output n m hname hd,
        loadOutputBars_eq cfg2 display createBar output n m hname hd, h1, h2]
      cases mc <;> rfl
  · intro m hmon hlook
    constructor
    · intro hreg b hb
      rw [loadOutputBars_eq cfg display createBar output n m hname hmon, hlook]
      have hcond : (cfg.startRegion.isSome || cfg.centerRegion.isSome
          || cfg.endRegion.isSome) = true := by
        rcases hreg with h | h | h <;> simp [h]
      simp only [hcond, if_true, hb]
    · intro h1 h2 h3
      rw [loadOutputBars_eq cfg display createBar output n m hname hmon, hlook]
      simp [h1, h2, h3]

/-- C3 witness: the spec's "DP-1" example. With only `start` populated and
no explicit entry, one default bar; the entry-wins part is exercised with
two configurations sharing an entry for "DP-1". -/
theorem new_event_tie_break_witness :
    (OutputInfo.mk (some "DP-1") (some (0, 0))).name = some "DP-1" ∧
    ((∀ mc, lookupMonitor ((Config.mk (some ()) none none none none).monitors.getD [])
        "DP-1" = some mc →
      lookupMonitor ((cfgEmpty).monitors.getD []) "DP-1" = some mc →
      loadOutputBars (Config.mk (some ()) none none none none) displayAll
          specCreateBar ⟨some "DP-1", some (0, 0)⟩ =
        loadOutputBars cfgEmpty displayAll specCreateBar
          ⟨some "DP-1", some (0, 0)⟩) ∧
    (∀ m, displayAll.monitorAtPoint
        (((OutputInfo.mk (some "DP-1") (some (0, 0))).logicalPosition.getD (0, 0)).1)
        (((OutputInfo.mk (some "DP-1") (some (0, 0))).logicalPosition.getD (0, 0)).2) =
          some m →
      lookupMonitor ((Config.mk (some ()) none none none none).monitors.getD [])
        "DP-1" = none →
      (((Config.mk (some ()) none none none none).startRegion.isSome ∨
        (Config.mk (some ()) none none none none).centerRegion.isSome ∨
        (Config.mk (some ()) none none none none).endRegion.isSome) →
        ∀ b, specCreateBar "DP-1" (Config.mk (some ()) none none none none) = .ok b →
          loadOutputBars (Config.mk (some ()) none none none none) displayAll
            specCreateBar ⟨some "DP-1", some (0, 0)⟩ = .ok [b]) ∧
      ((Config.mk (some ()) none none none none).startRegion = none →
        (Config.mk (some ()) none none none none).centerRegion = none →
        (Config.mk (some ()) none none none none).endRegion = none →
        loadOutputBars (Config.mk (some ()) none none none none) displayAll
          specCreateBar ⟨some "DP-1", some (0, 0)⟩ = .ok []))) :=
  ⟨rfl, new_event_tie_break _ _ _ _ _ _ rfl⟩

/-- C4: a `New` event for a monitor mapped to a list of `n` bar
configurations produces exactly `n` bars (when each construction succeeds),
all carrying that monitor name, one per configuration entry in list
order. -/
theorem new_event_multiple_fanout (cfg : Config) (display : Display)
    (createBar : CreateBar) (output : OutputInfo) (n : String)
    (configs : List Config) (m : Monitor)
    (hname : output.name = some n)
    (hmon : display.monitorAtPoint (output.logicalPosition.getD (0, 0)).1
      (output.logicalPosition.getD (0, 0)).2 = some m)
    (hlook : lookupMonitor (cfg.monitors.getD []) n = some (.Multiple configs))
    (hok : ∀ c ∈ configs, ∃ b, createBar n c = .ok b)
    (hmn : ∀ c b, createBar n c = .ok b → b.monitorName = n) :
    ∃ bars, loadOutputBars cfg display createBar output = .ok bars ∧
      bars.length = configs.length ∧
      (∀ b ∈ bars, b.monitorName = n) ∧
      ∀ i (hc : i < configs.length) (hb : i < bars.length),
        createBar n (configs.get ⟨i, hc⟩) = .ok (bars.get ⟨i, hb⟩) := by
  obtain ⟨bs, hbs, hlen, hpt⟩ := collectBars_ok createBar n configs hok
  refine ⟨bs, ?_, hlen, ?_, hpt⟩
  · rw [loadOutputBars_eq cfg display createBar output n m hname hmon, hlook]
    simp [hbs]
  · intro b hbmem
    obtain ⟨i, hi⟩ := List.mem_iff_get.mp hbmem
    have hc : i.val < configs.length := by
      rw [← hlen]
      exact i.isLt
    have := hpt i.val hc i.isLt
    rw [← hi]
    exact hmn _ _ (by simpa using this)

/-- C4 witness: the spec's two-configuration fan-out example on monitor
"M"; two bars, both bound to "M", named after their entries. -/
theorem new_event_multiple_fanout_witness :
    (OutputInfo.mk (some "M") (some (0, 0))).name = some "M" ∧
    ∃ bars, loadOutputBars
        (Config.mk none none none
          (some [("M", .Multiple [namedCfg "left", namedCfg "right"])]) none)
        displayAll specCreateBar ⟨some "M", some (0, 0)⟩ = .ok bars ∧
      bars.length = ([namedCfg "left", namedCfg "right"] : List Config).length ∧
      (∀ b ∈ bars, b.monitorName = "M") ∧
      ∀ i (hc : i < ([namedCfg "left", namedCfg "right"] : List Config).length)
          (hb : i < bars.length),
        specCreateBar "M" (([namedCfg "left", namedCfg "right"] : List Config).get
          ⟨i, hc⟩) = .ok (bars.get ⟨i, hb⟩) :=
  ⟨rfl, new_event_multiple_fanout _ _ _ _ _ _ () rfl rfl rfl
    (fun _ _ => ⟨_, rfl⟩) (fun c b h => specCreateBar_monitorName _ c b h)⟩

/-- C1 counterexample: monitor "M" maps to three sibling configurations
a, b, c, and only b's construction fails. The claim says a's and c's bars
are still produced; instead `load_output_bars` propagates b's error for
the whole event (`collect::<Result<_>>` plus `?`), and the event loop, on
`Err`, appends nothing: the registry stays empty. -/
theorem c1_sibling_abort_counterexample :
    loadOutputBars
        (Config.mk none none none
          (some [("M", .Multiple [namedCfg "a", namedCfg "b", namedCfg "c"])]) none)
        displayAll
        (fun monitorName config =>
          if config.name = some "b" then .error "boom"
          else .ok ⟨monitorName, config.name.getD monitorName⟩)
        ⟨some "M", some (0, 0)⟩ = .err "boom" ∧
    processEvent
        (Config.mk none none none
          (some [("M", .Multiple [namedCfg "a", namedCfg "b", namedCfg "c"])]) none)
        displayAll
        (fun monitorName config =>
          if config.name = some "b" then .error "boom"
          else .ok ⟨monitorName, config.name.getD monitorName⟩)
        [] ⟨.new, ⟨some "M", some (0, 0)⟩⟩ = some [] := by
  exact ⟨rfl, rfl⟩

/-- C1 (amended): if constructing one bar of a `Multiple` list fails, the
whole event is aborted, not just the failing entry: `load_output_bars`
returns an error, no bar of that event (successfully constructed siblings
included) reaches the registry, and the registry is unchanged; the error
does not abort the event loop, which continues with the remaining events
exactly as if the failing event were absent. -/
theorem c1_error_aborts_event_not_loop (cfg : Config) (display : Display)
    (createBar : CreateBar) (output : OutputInfo) (n : String)
    (configs : List Config) (m : Monitor) (bars : List Bar)
    (rest : List OutputEvent)
    (hname : output.name = some n)
    (hmon : display.monitorAtPoint (output.logicalPosition.getD (0, 0)).1
      (output.logicalPosition.getD (0, 0)).2 = some m)
    (hlook : lookupMonitor (cfg.monitors.getD []) n = some (.Multiple configs))
    (hfail : ∃ c ∈ configs, ∃ e, createBar n c = .error e) :
    ∃ e, loadOutputBars cfg display createBar output = .err e ∧
      processEvent cfg display createBar bars ⟨.new, output⟩ = some bars ∧
      processEvents cfg display createBar bars (⟨.new, output⟩ :: rest) =
        processEvents cfg display createBar bars rest := by
  obtain ⟨e, he⟩ := collectBars_error createBar n configs hfail
  have hload : loadOutputBars cfg display createBar output = .err e := by
    rw [loadOutputBars_eq cfg display createBar output n m hname hmon, hlook]
    simp [he]
  have hproc : processEvent cfg display createBar bars ⟨.new, output⟩ =
      some bars := by
    simp only [processEvent, hload]
  refine ⟨e, hload, hproc, ?_⟩
  simp only [processEvents, hproc]

/-- C1 (amended) witness: the a/b/c configuration, with a non-empty
registry and one further event. -/
theorem c1_error_aborts_event_not_loop_witness :
    (OutputInfo.mk (some "M") (some (0, 0))).name = some "M" ∧
    ∃ e, loadOutputBars
        (Config.mk none none none
          (some [("M", .Multiple [namedCfg "a", namedCfg "b", namedCfg "c"])]) none)
        displayAll
        (fun monitorName config =>
          if config.name = some "b" then .error "boom"
          else .ok ⟨monitorName, config.name.getD monitorName⟩)
        ⟨some "M", some (0, 0)⟩ = .err e ∧
      processEvent
        (Config.mk none none none
          (some [("M", .Multiple [namedCfg "a", namedCfg "b", namedCfg "c"])]) none)
        displayAll
        (fun monitorName config =>
          if config.name = some "b" then .error "boom"
          else .ok ⟨monitorName, config.name.getD monitorName⟩)
        [⟨"Z", "z"⟩] ⟨.new, ⟨some "M", some (0, 0)⟩⟩ = some [⟨"Z", "z"⟩] ∧
      processEvents
        (Config.mk none none none
          (some [("M", .Multiple [namedCfg "a", namedCfg "b", namedCfg "c"])]) none)
        displayAll
        (fun monitorName config =>
          if config.name = some "b" then .error "boom"
          else .ok ⟨monitorName, config.name.getD monitorName⟩)
        [⟨"Z", "z"⟩]
        (⟨.new, ⟨some "M", some (0, 0)⟩⟩ :: [⟨.destroyed, ⟨some "Z", none⟩⟩]) =
      processEvents
        (Config.mk none none none
          (some [("M", .Multiple [namedCfg "a", namedCfg "b", namedCfg "c"])]) none)
        displayAll
        (fun monitorName config =>
          if config.name = some "b" then .error "boom"
          else .ok ⟨monitorName, config.name.getD monitorName⟩)
        [⟨"Z", "z"⟩] [⟨.destroyed, ⟨some "Z", none⟩⟩] :=
  ⟨rfl, c1_error_aborts_event_not_loop _ _ _ _ _ _ () _ _ rfl rfl rfl
    ⟨namedCfg "b", List.mem_cons_of_mem _ (List.mem_cons_self _ _), "boom", rfl⟩⟩

/-- C5 counterexample: nothing in the lifecycle manager enforces the
registry invariant. With monitor "M" mapped to two configurations that both
name their bar "x" (`create_bar` modelled from the spec: the bar's name
comes from its configuration entry), a single `New` event reaches a state
with two live bars sharing the pair ("M", "x"). -/
theorem c5_duplicate_pair_counterexample :
    processEvents
        (Config.mk none none none
          (some [("M", .Multiple [namedCfg "x", namedCfg "x"])]) none)
        displayAll specCreateBar [] [⟨.new, ⟨some "M", some (0, 0)⟩⟩] =
      some [⟨"M", "x"⟩, ⟨"M", "x"⟩] ∧
    ¬ registryInvariant [⟨"M", "x"⟩, ⟨"M", "x"⟩] :=
  ⟨rfl, by decide⟩

/-- C5 (amended): the registry invariant is preserved by every event step
provided the bars a `New` event loads have pairwise-distinct
(monitor name, bar name) pairs that are not already live; `Destroyed` and
`Update` events preserve it unconditionally. (The code itself does not
enforce the proviso: duplicate explicit bar names violate it, as the
counterexample shows.) -/
theorem c5_invariant_preserved_under_fresh_names (cfg : Config)
    (display : Display) (createBar : CreateBar) (bars bars' : List Bar)
    (ev : OutputEvent)
    (hinv : registryInvariant bars)
    (hstep : processEvent cfg display createBar bars ev = some bars')
    (hnew : ∀ bs, ev.eventType = .new →
      loadOutputBars cfg display createBar ev.output = .ok bs →
      registryInvariant bs ∧
        ∀ b ∈ bs, ∀ b2 ∈ bars,
          (b.monitorName, b.name) ≠ (b2.monitorName, b2.name)) :
    registryInvariant bars' := by
  unfold processEvent at hstep
  cases het : ev.eventType with
  | new =>
    rw [het] at hstep
    cases hload : loadOutputBars cfg display createBar ev.output with
    | fatal msg => rw [hload] at hstep; cases hstep
    | err msg =>
      rw [hload] at hstep
      cases hstep
      exact hinv
    | ok bs =>
      rw [hload] at hstep
      cases hstep
      obtain ⟨hbs, hfresh⟩ := hnew bs het hload
      unfold registryInvariant at hinv hbs ⊢
      rw [List.pairwise_append]
      exact ⟨hinv, hbs, fun a ha b hb => (hfresh b hb a ha).symm⟩
  | destroyed =>
    rw [het] at hstep
    cases hn : ev.output.name with
    | none =>
      rw [hn] at hstep
      cases hstep
      exact hinv
    | some nm =>
      rw [hn] at hstep
      cases hstep
      exact List.Pairwise.sublist (List.filter_sublist _) hinv
  | update =>
    rw [het] at hstep
    cases hstep
    exact hinv

/-- C5 (amended) witness: a `Destroyed` step from an invariant-satisfying
registry; the freshness proviso is vacuous for non-`New` events. -/
theorem c5_invariant_preserved_witness :
    registryInvariant [⟨"A", "x"⟩, ⟨"B", "x"⟩] ∧
    processEvent cfgEmpty displayAll specCreateBar
        [⟨"A", "x"⟩, ⟨"B", "x"⟩] ⟨.destroyed, ⟨some "A", none⟩⟩ =
      some [⟨"B", "x"⟩] ∧
    registryInvariant [⟨"B", "x"⟩] :=
  ⟨by decide, rfl,
    c5_invariant_preserved_under_fresh_names cfgEmpty displayAll specCreateBar
      [⟨"A", "x"⟩, ⟨"B", "x"⟩] [⟨"B", "x"⟩] ⟨.destroyed, ⟨some "A", none⟩⟩
      (by decide) rfl (fun bs h => absurd h (by decide))⟩
